import Mathlib

/-!
Verification of the AMPLIFY / ESM2 data-pipeline core of this repository:
the masked-residue dataset, the multi-epoch resampler, padding collation,
the `AMPLIFYDataModule` orchestrator (`datamodule.py`), and the ESM2
fine-tuning entrypoint (`finetune_esm2.py`).

Components of the repository that are referenced by `datamodule.py` but whose
source is not part of the excerpt (`AMPLIFYMaskedResidueDataset`,
`MultiEpochDatasetResampler`, `bert_padding_collate_fn`, `infer_num_samples`)
are modelled from the specification; each such definition carries a doc
comment starting with "Modelled from the spec".
-/

namespace BioNeMo

/-! ### Deterministic pseudo-random generator

Modelled from the spec (§9, "Seeded-randomness-per-index determinism"): an
explicit pure function `derive_rng(seed, index)` hashing `seed` and `index`
into a generator state, advanced by a 64-bit linear congruential step. -/

/-- One 64-bit linear congruential generator step. -/
def lcgStep (s : Nat) : Nat :=
  (6364136223846793005 * s + 1442695040888963407) % 2 ^ 64

/-- Modelled from the spec: `derive_rng(seed, index)` — the per-sample random
generator state is a pure function of `(seed, index)` only. -/
def deriveRng (seed i : Nat) : Nat :=
  lcgStep ((seed * 2 ^ 32 + i) % 2 ^ 64)

/-- Probabilities are represented as integer thresholds out of `probScale`
(parts per million), so that Bernoulli and categorical draws are exact
integer comparisons. -/
def probScale : Nat := 1000000

/-- Draw a value in `[0, probScale)` and advance the generator. -/
def drawProb (st : Nat) : Nat × Nat :=
  ((st / 2 ^ 11) % probScale, lcgStep st)

/-- Draw an unbounded natural number and advance the generator. -/
def drawNat (st : Nat) : Nat × Nat :=
  (st / 2 ^ 11, lcgStep st)

/-! ### Tokenizer adapter and masking data model -/

/-- `RandomMaskStrategy` from `bionemo.amplify.dataset`: whether random
replacement draws from the full vocabulary or from amino-acid tokens only. -/
inductive RandomMaskStrategy
  | all_tokens
  | amino_acids_only
deriving DecidableEq, Repr

/-- Tokenizer adapter interface (spec §4.1): encodes residue symbols to
integer ids and exposes the special-token ids.  `pad_token_id` is optional
because the orchestrator must validate its presence. -/
structure Tokenizer where
  encode : Nat → Option Nat
  mask_token_id : Nat
  pad_token_id : Option Nat
  amino_acid_token_ids : List Nat
  all_token_ids : List Nat

/-- The three masking probabilities of spec §4.2, as thresholds out of
`probScale`. -/
structure MaskingParams where
  mask_prob : Nat
  mask_token_prob : Nat
  mask_random_prob : Nat
deriving DecidableEq, Repr

/-- The ignore sentinel marking label positions excluded from the loss. -/
def ignore_sentinel : Int := -100

/-- A masked training example: token ids fed to the model and per-position
labels (original token at masked positions, `ignore_sentinel` elsewhere). -/
structure MaskedExample where
  input_ids : List Nat
  labels : List Int
deriving DecidableEq, Repr

/-- The candidate pool for random replacement, per strategy. -/
def randomPool (tk : Tokenizer) : RandomMaskStrategy → List Nat
  | .all_tokens => tk.all_token_ids
  | .amino_acids_only => tk.amino_acid_token_ids

/-- Modelled from the spec (§4.2 steps 3–4): one position's masking decision.
Returns `((selected, input_id, label), next_state)`: a Bernoulli(`mask_prob`)
selection draw, then for selected positions a three-way categorical split
between mask-token replacement, uniform random replacement from the strategy
pool, and the BERT-style "leave unchanged" branch (which still contributes
the true token to the loss). -/
def maskPosition (p : MaskingParams) (tk : Tokenizer) (strat : RandomMaskStrategy)
    (st : Nat) (tok : Nat) : (Bool × Nat × Int) × Nat :=
  let u := (drawProb st).1
  let st1 := (drawProb st).2
  if u < p.mask_prob then
    let v := (drawProb st1).1
    let st2 := (drawProb st1).2
    if v < p.mask_token_prob then
      ((true, tk.mask_token_id, (tok : Int)), st2)
    else if v < p.mask_token_prob + p.mask_random_prob then
      let w := (drawNat st2).1
      let st3 := (drawNat st2).2
      let pool := randomPool tk strat
      ((true, pool.getD (w % pool.length) tok, (tok : Int)), st3)
    else
      ((true, tok, (tok : Int)), st2)
  else
    ((false, tok, ignore_sentinel), st1)

/-- Modelled from the spec (§4.2 steps 3–6): mask a whole token sequence,
threading the per-sample generator state position by position.  Each row is
`(selected, input_id, label)`. -/
def maskSeq (p : MaskingParams) (tk : Tokenizer) (strat : RandomMaskStrategy) :
    Nat → List Nat → List (Bool × Nat × Int)
  | _, [] => []
  | st, tok :: rest =>
    (maskPosition p tk strat st tok).1 ::
      maskSeq p tk strat (maskPosition p tk strat st tok).2 rest

/-- Errors of the masked-residue dataset (spec §7). -/
inductive DatasetError
  | index_error
  | unknown_symbol
  | sequence_too_short
deriving DecidableEq, Repr

/-- Encode a raw residue-symbol sequence; an out-of-alphabet symbol is an
`UnknownSymbolError` (spec §4.1). -/
def encodeSeq (tk : Tokenizer) : List Nat → Except DatasetError (List Nat)
  | [] => .ok []
  | s :: rest =>
    match tk.encode s with
    | none => .error .unknown_symbol
    | some t => (encodeSeq tk rest).map (t :: ·)

/-- Modelled from the spec (§4.2): the masked-residue dataset
`AMPLIFYMaskedResidueDataset` — backing corpus of raw residue sequences, base
seed, truncation length, masking probabilities, strategy and tokenizer. -/
structure AMPLIFYMaskedResidueDataset where
  corpus : List (List Nat)
  seed : Nat
  max_seq_length : Nat
  params : MaskingParams
  random_mask_strategy : RandomMaskStrategy
  tk : Tokenizer

/-- Length of the dataset: one logical item per corpus record. -/
def AMPLIFYMaskedResidueDataset.len (ds : AMPLIFYMaskedResidueDataset) : Nat :=
  ds.corpus.length

/-- The execution context a stateful implementation could observe: worker id,
epoch, how many prior calls were made, and an ambient (global) generator
state.  Spec §4.2 step 1 requires the output not to depend on any of these. -/
structure CallCtx where
  worker_id : Nat
  epoch : Nat
  call_counter : Nat
  ambient_rng_state : Nat
deriving DecidableEq, Repr

/-- Modelled from the spec (§4.2 step 2): fetch record `i`, encode it, and
truncate to `max_seq_length`; a zero-length truncated sequence is a
`SequenceTooShortError`. -/
def truncatedTokens (ds : AMPLIFYMaskedResidueDataset) (i : Nat) :
    Except DatasetError (List Nat) :=
  match ds.corpus.get? i with
  | none => .error .index_error
  | some record =>
    match encodeSeq ds.tk record with
    | .error e => .error e
    | .ok toks =>
      let t := toks.take ds.max_seq_length
      if t.isEmpty then .error .sequence_too_short else .ok t

/-- The masking rows `(selected, input_id, label)` for sample `i`, computed
with the per-sample generator `deriveRng ds.seed i`. -/
def maskedRows (ds : AMPLIFYMaskedResidueDataset) (i : Nat) :
    Except DatasetError (List (Bool × Nat × Int)) :=
  (truncatedTokens ds i).map
    (fun toks => maskSeq ds.params ds.tk ds.random_mask_strategy (deriveRng ds.seed i) toks)

/-- Modelled from the spec (§4.2): `AMPLIFYMaskedResidueDataset.__getitem__`.
The call context is a parameter so that independence from worker, epoch,
call order and ambient generator state is a provable statement. -/
def AMPLIFYMaskedResidueDataset.getitem (ds : AMPLIFYMaskedResidueDataset)
    (_ctx : CallCtx) (i : Nat) : Except DatasetError MaskedExample :=
  (maskedRows ds i).map
    (fun rows => { input_ids := rows.map (fun r => r.2.1),
                   labels := rows.map (fun r => r.2.2) })

/-- The Bernoulli selection decisions of sample `i` (spec §4.2 step 3). -/
def selectionMask (ds : AMPLIFYMaskedResidueDataset) (i : Nat) :
    Except DatasetError (List Bool) :=
  (maskedRows ds i).map (List.map (fun r => r.1))

/-! ### Multi-epoch resampler (spec §4.3) -/

/-- Modelled from the spec: a deterministic shuffle driven by the generator —
repeatedly remove the element at a pseudo-random index and emit it.  The
fuel argument bounds recursion and equals the list length at the top call. -/
def drawPermAux : Nat → Nat → List Nat → List Nat
  | 0, _, _ => []
  | _ + 1, _, [] => []
  | fuel + 1, st, x :: xs =>
    let l := x :: xs
    let v := l.get ⟨(st / 2 ^ 11) % l.length, Nat.mod_lt _ (by simp [l])⟩
    v :: drawPermAux fuel (lcgStep st) (l.erase v)

/-- Modelled from the spec (§4.3): the per-epoch permutation of
`[0, epoch_length)`, derived deterministically from `(seed, epoch)`. -/
def epochPermutation (seed epoch n : Nat) : List Nat :=
  drawPermAux n (deriveRng seed epoch) (List.range n)

/-- Modelled from the spec (§4.3): `MultiEpochDatasetResampler` parameters.
`epoch_length` is the length of the wrapped finite dataset. -/
structure MultiEpochDatasetResampler where
  epoch_length : Nat
  num_samples : Nat
  shuffle : Bool
  seed : Nat
deriving DecidableEq, Repr

/-- The permutation used for a given epoch: the seeded shuffle when
`shuffle = true`, the identity permutation otherwise. -/
def resamplerPermutation (r : MultiEpochDatasetResampler) (epoch : Nat) : List Nat :=
  if r.shuffle then epochPermutation r.seed epoch r.epoch_length
  else List.range r.epoch_length

/-- Modelled from the spec (§4.3): the underlying record index for logical
position `position`, via `epoch = position / epoch_length`,
`offset = position % epoch_length` and the per-epoch permutation. -/
def resamplerUnderlyingIndex (r : MultiEpochDatasetResampler) (position : Nat) : Nat :=
  (resamplerPermutation r (position / r.epoch_length)).getD (position % r.epoch_length) 0

/-- Modelled from the spec (§4.3): `get(position)` delegates to the wrapped
dataset at the permuted underlying index. -/
def resamplerGet {α : Type} (r : MultiEpochDatasetResampler) (wrapped : Nat → α)
    (position : Nat) : α :=
  wrapped (resamplerUnderlyingIndex r position)

/-! ### Collation / batching (spec §4.4) -/

/-- Errors of the collation component (spec §7). -/
inductive CollateError
  | batch_too_long
deriving DecidableEq, Repr

/-- A collated rectangular micro-batch. -/
structure CollatedBatch where
  input_ids : List (List Nat)
  labels : List (List Int)
deriving DecidableEq, Repr

/-- Right-pad a list with `pad` up to length `len` (no-op beyond `len`). -/
def padTo {α : Type} (pad : α) (len : Nat) (xs : List α) : List α :=
  xs ++ List.replicate (len - xs.length) pad

/-- The collation target length `L = max(min_length or 0, max(len(ex)))`. -/
def collateTargetLength (batch : List MaskedExample) (min_length : Option Nat) : Nat :=
  max (min_length.getD 0) ((batch.map (fun ex => ex.input_ids.length)).foldr max 0)

/-- Modelled from the spec (§4.4): `bert_padding_collate_fn` — fail with
`BatchTooLongError` if any example exceeds `max_length`, otherwise right-pad
every example's `input_ids` with `padding_value` and its `labels` with the
ignore sentinel up to the target length, preserving order. -/
def bert_padding_collate_fn (batch : List MaskedExample) (padding_value : Nat)
    (min_length : Option Nat) (max_length : Nat) : Except CollateError CollatedBatch :=
  let target := collateTargetLength batch min_length
  if batch.any (fun ex => max_length < ex.input_ids.length) then
    .error .batch_too_long
  else
    .ok { input_ids := batch.map (fun ex => padTo padding_value target ex.input_ids),
          labels := batch.map (fun ex => padTo ignore_sentinel target ex.labels) }

/-! ### DataModule orchestrator (`datamodule.py`, `AMPLIFYDataModule`) -/

/-- Lightning's `trainer.limit_val_batches`: absent, an absolute batch
count, or a fraction of the validation set. -/
inductive LimitValBatches
  | none
  | count (n : Nat)
  | fraction (num den : Nat)
deriving DecidableEq, Repr

/-- The externally attached trainer handle, as read by
`AMPLIFYDataModule.setup`: `max_steps`, `max_epochs` and
`limit_val_batches`. -/
structure Trainer where
  max_steps : Int
  max_epochs : Option Int
  limit_val_batches : LimitValBatches
deriving DecidableEq, Repr

/-- The configuration stored by `AMPLIFYDataModule.__init__`
(`datamodule.py` lines 38–103). -/
structure AMPLIFYDataModule where
  train_hf_dataset : List (List Nat)
  valid_hf_dataset : List (List Nat)
  seed : Nat
  min_seq_length : Option Nat
  max_seq_length : Nat
  micro_batch_size : Nat
  global_batch_size : Nat
  mask_prob : Nat
  mask_token_prob : Nat
  mask_random_prob : Nat
  random_mask_strategy : RandomMaskStrategy
  tk : Tokenizer

/-- Configuration errors (spec §7). -/
inductive ConfigError
  | missing_pad_token
deriving DecidableEq, Repr

/-- `AMPLIFYDataModule.__init__` (`datamodule.py` lines 38–103): stores the
fields and builds the data sampler.  It performs no validation of its own,
so it never raises a configuration error. -/
def AMPLIFYDataModule.construct (train_hf_dataset valid_hf_dataset : List (List Nat))
    (seed : Nat) (min_seq_length : Option Nat) (max_seq_length : Nat)
    (micro_batch_size global_batch_size : Nat)
    (mask_prob mask_token_prob mask_random_prob : Nat)
    (random_mask_strategy : RandomMaskStrategy) (tk : Tokenizer) :
    Except ConfigError AMPLIFYDataModule :=
  .ok { train_hf_dataset := train_hf_dataset, valid_hf_dataset := valid_hf_dataset,
        seed := seed, min_seq_length := min_seq_length, max_seq_length := max_seq_length,
        micro_batch_size := micro_batch_size, global_batch_size := global_batch_size,
        mask_prob := mask_prob, mask_token_prob := mask_token_prob,
        mask_random_prob := mask_random_prob, random_mask_strategy := random_mask_strategy,
        tk := tk }

/-- Errors raised by `AMPLIFYDataModule.setup` (`datamodule.py` lines
121–132): trainer not attached, or `trainer.max_steps` not set. -/
inductive SetupError
  | no_trainer
  | max_steps_not_set
deriving DecidableEq, Repr

/-- One stage's dataset chain after setup: the masked-residue dataset
wrapped in a multi-epoch resampler. -/
structure ResampledDataset where
  base : AMPLIFYMaskedResidueDataset
  resampler : MultiEpochDatasetResampler

/-- The datasets constructed by a successful `setup`. -/
structure SetupState where
  train_ds : ResampledDataset
  valid_ds : ResampledDataset

/-- The masked-residue dataset built by `setup` for a given corpus
(`datamodule.py` lines 138–147 and 153–162). -/
def AMPLIFYDataModule.buildDataset (m : AMPLIFYDataModule) (corpus : List (List Nat)) :
    AMPLIFYMaskedResidueDataset :=
  { corpus := corpus, seed := m.seed, max_seq_length := m.max_seq_length,
    params := { mask_prob := m.mask_prob, mask_token_prob := m.mask_token_prob,
                mask_random_prob := m.mask_random_prob },
    random_mask_strategy := m.random_mask_strategy, tk := m.tk }

/-- `AMPLIFYDataModule.setup` (`datamodule.py` lines 110–175): check that a
trainer is attached and `max_steps` is positive, compute
`num_train_samples = int(max_train_steps * global_batch_size)`, wrap the
training dataset in a shuffled resampler upsampled to that count, and wrap
the validation dataset in an unshuffled resampler whose sample count comes
from the `infer_num_samples` validation-batch-limit policy.
`infer_num_samples` (`bionemo.llm.utils.datamodule_utils`) is not part of
the excerpt; it is kept abstract as the `inferNumSamples` argument, applied
to `(limit_val_batches, len(valid_ds), global_batch_size)` exactly as at
`datamodule.py` lines 163–168. -/
def AMPLIFYDataModule.setup (m : AMPLIFYDataModule) (trainer : Option Trainer)
    (inferNumSamples : LimitValBatches → Nat → Nat → Nat) :
    Except SetupError SetupState :=
  match trainer with
  | none => .error .no_trainer
  | some t =>
    if t.max_steps ≤ 0 then .error .max_steps_not_set
    else
      let num_train_samples := (t.max_steps * (m.global_batch_size : Int)).toNat
      let trainBase := m.buildDataset m.train_hf_dataset
      let validBase := m.buildDataset m.valid_hf_dataset
      let num_val_samples :=
        inferNumSamples t.limit_val_batches validBase.len m.global_batch_size
      .ok { train_ds :=
              { base := trainBase,
                resampler := { epoch_length := trainBase.len,
                               num_samples := num_train_samples,
                               shuffle := true, seed := m.seed } },
            valid_ds :=
              { base := validBase,
                resampler := { epoch_length := validBase.len,
                               num_samples := num_val_samples,
                               shuffle := false, seed := m.seed } } }

/-- Dataloader stage (`datamodule.py` `Mode`). -/
inductive Mode
  | train
  | validation
  | test
deriving DecidableEq, Repr

/-- Errors of dataloader creation: the assertion
`self._tokenizer.pad_token_id is not None` (`datamodule.py` line 186). -/
inductive DataloaderError
  | missing_pad_token
  | not_implemented
deriving DecidableEq, Repr

/-- The dataloader configuration produced by `_create_dataloader`: the mode
and the arguments bound into the `bert_padding_collate_fn` partial
application (`datamodule.py` lines 188–201). -/
structure DataloaderSpec where
  mode : Mode
  collate_padding_value : Nat
  collate_min_length : Option Nat
  collate_max_length : Nat
deriving DecidableEq, Repr

/-- `AMPLIFYDataModule._create_dataloader` (`datamodule.py` lines 177–201):
asserts the tokenizer has a pad token id, then builds the dataloader whose
collate function is `bert_padding_collate_fn` with `padding_value =
pad_token_id`, `min_length = min_seq_length`, `max_length =
max_seq_length`. -/
def AMPLIFYDataModule.createDataloader (m : AMPLIFYDataModule) (mode : Mode) :
    Except DataloaderError DataloaderSpec :=
  match m.tk.pad_token_id with
  | none => .error .missing_pad_token
  | some pad =>
    .ok { mode := mode, collate_padding_value := pad,
          collate_min_length := m.min_seq_length,
          collate_max_length := m.max_seq_length }

/-- `AMPLIFYDataModule.test_dataloader` (`datamodule.py` lines 211–213):
unconditionally raises `NotImplementedError`. -/
def AMPLIFYDataModule.test_dataloader (_m : AMPLIFYDataModule) :
    Except DataloaderError DataloaderSpec :=
  .error .not_implemented

/-! ### ESM2 fine-tuning entrypoint (`finetune_esm2.py`) -/

/-- A Python value held by a parsed-argument attribute. -/
inductive PyVal
  | none
  | int (n : Int)
  | str (s : String)
  | bool (b : Bool)
  | cls (name : String)
deriving DecidableEq, Repr

/-- Python truthiness of a `PyVal`. -/
def truthy : PyVal → Bool
  | .none => false
  | .int n => n ≠ 0
  | .str s => s ≠ ""
  | .bool b => b
  | .cls _ => true

/-- Exceptions observable from the entrypoint: attribute lookup on a missing
`argparse.Namespace` attribute, or `parser.error` aborting the process. -/
inductive PyError
  | attribute_error (name : String)
  | parser_exit
deriving DecidableEq, Repr

/-- An `argparse.Namespace`: a finite attribute map. -/
def PyNamespace : Type := List (String × PyVal)

/-- Python `getattr`: a missing attribute raises `AttributeError` carrying
the attribute name. -/
def getattrNs (args : PyNamespace) (name : String) : Except PyError PyVal :=
  match List.lookup name args with
  | some v => .ok v
  | Option.none => .error (.attribute_error name)

/-- The attribute names (argparse dests) defined by `get_parser`
(`finetune_esm2.py` lines 479–858): every `--option-name` with dashes
mapped to underscores.  Note `dataset_class` is present and `datset_class`
is not. -/
def parserDests : List String :=
  ["train_data_path", "valid_data_path", "precision", "lr", "scale_lr_layer",
   "lr_multiplier", "create_tensorboard_logger", "resume_if_exists",
   "result_dir", "experiment_name", "wandb_entity", "wandb_project",
   "wandb_tags", "wandb_group", "wandb_id", "wandb_anonymous",
   "wandb_log_model", "wandb_offline", "num_gpus", "num_nodes", "num_steps",
   "num_dataset_workers", "val_check_interval", "log_every_n_steps",
   "min_seq_length", "max_seq_length", "limit_val_batches",
   "micro_batch_size", "accumulate_grad_batches",
   "pipeline_model_parallel_size", "tensor_model_parallel_size",
   "task_type", "encoder_frozen", "mlp_ft_dropout", "mlp_hidden_size",
   "mlp_target_size", "cnn_dropout", "cnn_hidden_size", "cnn_num_classes",
   "restore_from_checkpoint_path", "save_last_checkpoint",
   "metric_to_monitor_for_checkpoints", "save_top_k", "nsys_profiling",
   "nsys_start_step", "nsys_end_step", "nsys_ranks", "overlap_grad_reduce",
   "no_overlap_param_gather", "no_average_in_collective",
   "grad_reduce_in_fp32", "avoid_ckpt_async_save", "label_column",
   "lora_checkpoint_path", "lora_finetune", "config_class", "clip_grad",
   "dataset_class", "seed"]

/-- `parser.parse_args()`: a parsed command line assigns one value to every
parser dest and defines no other attribute. -/
def parseArgs (values : String → PyVal) : PyNamespace :=
  parserDests.map (fun d => (d, values d))

/-- The attributes read off `args` by the `train_model(...)` call at
`finetune_esm2.py` lines 420–480, in evaluation order. -/
def trainModelArgNames : List String :=
  ["train_data_path", "valid_data_path", "num_nodes", "num_gpus",
   "min_seq_length", "max_seq_length", "result_dir", "wandb_entity",
   "wandb_project", "wandb_tags", "wandb_group", "wandb_id",
   "wandb_anonymous", "wandb_log_model", "wandb_offline", "num_steps",
   "limit_val_batches", "val_check_interval", "log_every_n_steps",
   "num_dataset_workers", "lr", "micro_batch_size",
   "pipeline_model_parallel_size", "tensor_model_parallel_size",
   "accumulate_grad_batches", "precision", "task_type", "encoder_frozen",
   "scale_lr_layer", "lr_multiplier", "mlp_ft_dropout", "mlp_hidden_size",
   "mlp_target_size", "cnn_dropout", "cnn_hidden_size", "cnn_num_classes",
   "experiment_name", "resume_if_exists", "restore_from_checkpoint_path",
   "save_last_checkpoint", "metric_to_monitor_for_checkpoints",
   "save_top_k", "nsys_profiling", "nsys_start_step", "nsys_end_step",
   "nsys_ranks", "dataset_class", "config_class", "overlap_grad_reduce",
   "no_overlap_param_gather", "no_average_in_collective",
   "grad_reduce_in_fp32", "avoid_ckpt_async_save", "label_column",
   "lora_checkpoint_path", "lora_finetune", "create_tensorboard_logger"]

/-- Outcome of the entrypoint when no exception is raised. -/
inductive EntryOutcome
  | train_model_called
deriving DecidableEq, Repr

/-- The attribute read by the first operand of the guard at line 414. -/
def attr_min_seq_length : String := "min_seq_length"

/-- The misspelled attribute read by the second operand of the guard at line
414 (`args.datset_class`); the parser defines `dataset_class` instead. -/
def attr_datset_class : String := "datset_class"

/-- Attribute read by the LoRA guard at line 416. -/
def attr_lora_checkpoint_path : String := "lora_checkpoint_path"

/-- Attribute read by the LoRA guard at line 416. -/
def attr_lora_finetune : String := "lora_finetune"

/-- The class compared against at line 414. -/
def clsInMemorySingleValueDataset : String := "InMemorySingleValueDataset"

/-- The tail of the entrypoint after the two guards at lines 414–417: the
LoRA guard, then the `train_model(...)` call reading its arguments off
`args` in evaluation order. -/
def entrypointAfterGuards (args : PyNamespace) : Except PyError EntryOutcome :=
  match getattrNs args attr_lora_checkpoint_path with
  | .error e => .error e
  | .ok lcp =>
    match getattrNs args attr_lora_finetune with
    | .error e => .error e
    | .ok lf =>
      if truthy lcp && !truthy lf then .error PyError.parser_exit
      else
        match trainModelArgNames.mapM (getattrNs args) with
        | .error e => .error e
        | .ok _ => .ok EntryOutcome.train_model_called

/-- `finetune_esm2_entrypoint` (`finetune_esm2.py` lines 407–480) after
argument parsing: the guard at line 414 evaluates
`args.min_seq_length is not None and args.datset_class is
InMemorySingleValueDataset` with Python short-circuiting (the second operand
— an access to the nonexistent attribute `datset_class` — is evaluated only
when `min_seq_length` is not `None`), then the LoRA guard at line 416, then
the `train_model` call reading its arguments off `args`. -/
def finetune_esm2_entrypoint (args : PyNamespace) : Except PyError EntryOutcome :=
  match getattrNs args attr_min_seq_length with
  | .error e => .error e
  | .ok msl =>
    if msl ≠ PyVal.none then
      match getattrNs args attr_datset_class with
      | .error e => .error e
      | .ok dc =>
        if dc = PyVal.cls clsInMemorySingleValueDataset then
          .error PyError.parser_exit
        else entrypointAfterGuards args
    else entrypointAfterGuards args

/-! ### Helper lemmas -/

/-- Default row used with `List.getD` on masking rows. -/
def rowDefault : Bool × Nat × Int := (false, 0, 0)

lemma maskPosition_fst_cases (p : MaskingParams) (tk : Tokenizer)
    (strat : RandomMaskStrategy) (st tok : Nat) :
    ((maskPosition p tk strat st tok).1.1 = false →
      (maskPosition p tk strat st tok).1.2.1 = tok ∧
      (maskPosition p tk strat st tok).1.2.2 = ignore_sentinel) ∧
    ((maskPosition p tk strat st tok).1.1 = true →
      (maskPosition p tk strat st tok).1.2.2 = (tok : Int)) := by
  unfold maskPosition
  dsimp only
  split_ifs <;> simp

lemma maskSeq_length (p : MaskingParams) (tk : Tokenizer) (strat : RandomMaskStrategy) :
    ∀ (st : Nat) (toks : List Nat), (maskSeq p tk strat st toks).length = toks.length := by
  intro st toks
  induction toks generalizing st with
  | nil => simp [maskSeq]
  | cons t ts ih => simp [maskSeq, ih]

lemma maskSeq_getD_spec (p : MaskingParams) (tk : Tokenizer) (strat : RandomMaskStrategy) :
    ∀ (toks : List Nat) (st k : Nat), k < toks.length →
      (((maskSeq p tk strat st toks).getD k rowDefault).1 = false →
        ((maskSeq p tk strat st toks).getD k rowDefault).2.1 = toks.getD k 0 ∧
        ((maskSeq p tk strat st toks).getD k rowDefault).2.2 = ignore_sentinel) ∧
      (((maskSeq p tk strat st toks).getD k rowDefault).1 = true →
        ((maskSeq p tk strat st toks).getD k rowDefault).2.2 = (toks.getD k 0 : Int)) := by
  intro toks
  induction toks with
  | nil => intro st k h; simp at h
  | cons t ts ih =>
    intro st k h
    cases k with
    | zero => simpa [maskSeq] using maskPosition_fst_cases p tk strat st t
    | succ k =>
      have h' : k < ts.length := by simpa using h
      simpa [maskSeq] using ih (maskPosition p tk strat st t).2 k h'

lemma truncatedTokens_length_le (ds : AMPLIFYMaskedResidueDataset) (i : Nat)
    (toks : List Nat) (h : truncatedTokens ds i = .ok toks) :
    toks.length ≤ ds.max_seq_length := by
  unfold truncatedTokens at h
  split at h
  · cases h
  · split at h
    · cases h
    · dsimp only at h
      split at h
      · cases h
      · cases h
        calc (List.take ds.max_seq_length _).length
            = min ds.max_seq_length _ := List.length_take _ _
          _ ≤ ds.max_seq_length := Nat.min_le_left _ _

lemma getD_map_of_lt {α β : Type} (f : α → β) (l : List α) (k : Nat) (d : β) (d' : α)
    (h : k < l.length) : (l.map f).getD k d = f (l.getD k d') := by
  rw [List.getD_eq_getElem _ _ (by simpa using h), List.getD_eq_getElem _ _ h,
    List.getElem_map]

lemma drawPermAux_perm : ∀ (fuel st : Nat) (xs : List Nat),
    xs.length ≤ fuel → (drawPermAux fuel st xs).Perm xs := by
  intro fuel
  induction fuel with
  | zero =>
    intro st xs h
    have : xs = [] := List.length_eq_zero.mp (Nat.le_zero.mp h)
    simp [this, drawPermAux]
  | succ fuel ih =>
    intro st xs h
    cases xs with
    | nil => simp [drawPermAux]
    | cons x rest =>
      rw [drawPermAux]
      set l := x :: rest with hl
      set v := l.get ⟨(st / 2 ^ 11) % l.length, Nat.mod_lt _ (by simp [hl])⟩ with hv
      have hvmem : v ∈ l := by rw [hv]; exact List.get_mem l _ _
      have hlen : (l.erase v).length ≤ fuel := by
        rw [List.length_erase_of_mem hvmem]
        simpa [hl] using Nat.le_of_succ_le_succ (by simpa [hl] using h)
      exact ((ih (lcgStep st) (l.erase v) hlen).cons v).trans
        (List.perm_cons_erase hvmem).symm

lemma epochPermutation_perm (seed epoch n : Nat) :
    (epochPermutation seed epoch n).Perm (List.range n) :=
  drawPermAux_perm n (deriveRng seed epoch) (List.range n) (by simp)

lemma mem_le_foldr_max : ∀ {l : List Nat} {a : Nat}, a ∈ l → a ≤ l.foldr max 0 := by
  intro l
  induction l with
  | nil => intro a h; cases h
  | cons x xs ih =>
    intro a h
    rcases List.mem_cons.mp h with rfl | h
    · exact Nat.le_max_left _ _
    · exact (ih h).trans (Nat.le_max_right _ _)

lemma padTo_length {α : Type} (pad : α) (len : Nat) (xs : List α)
    (h : xs.length ≤ len) : (padTo pad len xs).length = len := by
  simp [padTo]
  omega

lemma padTo_take {α : Type} (pad : α) (len : Nat) (xs : List α) :
    (padTo pad len xs).take xs.length = xs := by
  simp [padTo, List.take_left]

lemma lookup_map_pair (ds : List String) (values : String → PyVal) (name : String) :
    List.lookup name (ds.map (fun d => (d, values d))) =
      if name ∈ ds then some (values name) else Option.none := by
  induction ds with
  | nil => simp [List.lookup]
  | cons d rest ih =>
    simp only [List.map_cons, List.lookup]
    by_cases h : name = d
    · subst h
      simp
    · have hbeq : (name == d) = false := by simpa using h
      simp only [hbeq]
      rw [ih]
      simp [List.mem_cons, h]

/-! ### Concrete instances used by witnesses and counterexamples -/

/-- A small tokenizer whose encoding is the identity and which has a pad
token id. -/
def tkId : Tokenizer :=
  { encode := fun s => some s, mask_token_id := 99, pad_token_id := some 0,
    amino_acid_token_ids := [1, 2, 3], all_token_ids := [0, 1, 2, 3, 99] }

/-- The same tokenizer with the pad token id absent. -/
def tkNoPad : Tokenizer :=
  { encode := fun s => some s, mask_token_id := 99, pad_token_id := Option.none,
    amino_acid_token_ids := [1, 2, 3], all_token_ids := [0, 1, 2, 3, 99] }

/-- A concrete data module configuration. -/
def dmEx : AMPLIFYDataModule :=
  { train_hf_dataset := [[5, 6], [7]], valid_hf_dataset := [[8]], seed := 42,
    min_seq_length := Option.none, max_seq_length := 4, micro_batch_size := 1,
    global_batch_size := 2, mask_prob := 150000, mask_token_prob := 800000,
    mask_random_prob := 100000, random_mask_strategy := .amino_acids_only,
    tk := tkId }

/-- The same configuration built over the pad-less tokenizer. -/
def dmNoPad : AMPLIFYDataModule :=
  { train_hf_dataset := [[5, 6], [7]], valid_hf_dataset := [[8]], seed := 42,
    min_seq_length := Option.none, max_seq_length := 4, micro_batch_size := 1,
    global_batch_size := 2, mask_prob := 150000, mask_token_prob := 800000,
    mask_random_prob := 100000, random_mask_strategy := .amino_acids_only,
    tk := tkNoPad }

/-- A validation-batch-limit policy instance: use the full dataset. -/
def inferFull : LimitValBatches → Nat → Nat → Nat := fun _ n _ => n

/-- A trainer with a positive `max_steps`. -/
def trainerEx : Trainer :=
  { max_steps := 3, max_epochs := some 1, limit_val_batches := .count 1 }

/-- A trainer with `max_steps = 0` (not configured). -/
def trainerBad : Trainer :=
  { max_steps := 0, max_epochs := Option.none, limit_val_batches := .count 1 }

/-- A dataset whose masking parameters always select every position and
always resolve the categorical draw to the "leave unchanged" branch. -/
def dsUnchanged : AMPLIFYMaskedResidueDataset :=
  { corpus := [[5]], seed := 0, max_seq_length := 4,
    params := { mask_prob := probScale, mask_token_prob := 0, mask_random_prob := 0 },
    random_mask_strategy := .amino_acids_only, tk := tkId }

/-- A trivial call context. -/
def ctxZero : CallCtx := ⟨0, 0, 0, 0⟩

/-- The example `dsUnchanged` yields at index 0. -/
def exUnchanged : MaskedExample := { input_ids := [5], labels := [5] }

/-- An unshuffled resampler with `num_samples = epoch_length = 3`. -/
def resEx : MultiEpochDatasetResampler :=
  { epoch_length := 3, num_samples := 3, shuffle := false, seed := 42 }

/-- A micro-batch with example lengths `[5, 8, 3]`. -/
def batchEx : List MaskedExample :=
  [{ input_ids := List.replicate 5 1, labels := List.replicate 5 (1 : Int) },
   { input_ids := List.replicate 8 2, labels := List.replicate 8 (2 : Int) },
   { input_ids := List.replicate 3 3, labels := List.replicate 3 (3 : Int) }]

/-- A parsed command line that sets `--min-seq-length` and leaves every
other option at `None`. -/
def valuesEx : String → PyVal :=
  fun n => if n = attr_min_seq_length then .int 128 else .none

/-- The claimed property refuted for C5: the set of positions at which
`input_ids` differs from the truncated original sequence is exactly the set
of positions selected for masking. -/
def exactSelectedDifferProp (ds : AMPLIFYMaskedResidueDataset) (ctx : CallCtx)
    (i : Nat) : Prop :=
  ∀ ex toks sel, ds.getitem ctx i = .ok ex → truncatedTokens ds i = .ok toks →
    selectionMask ds i = .ok sel →
    ∀ k, k < toks.length →
      (sel.getD k false = true ↔ ex.input_ids.getD k 0 ≠ toks.getD k 0)

/-! ### Claim theorems -/

/-- C1: For every fixed seed and logical sample index `i`, evaluating the
masked-residue dataset at index `i` yields an identical `MaskedExample` on
every call: the per-sample generator is a pure function of `(seed, i)`, so
the result — including `input_ids` and `labels` — is independent of the
call context (call order, worker process, epoch, ambient generator state,
process instance). -/
theorem getitem_independent_of_call_context (ds : AMPLIFYMaskedResidueDataset)
    (c₁ c₂ : CallCtx) (i : Nat) :
    ds.getitem c₁ i = ds.getitem c₂ i :=
  rfl

/-- C10: `AMPLIFYDataModule.test_dataloader` always raises
`NotImplementedError`, for every construction of the module; no test
dataset is ever produced. -/
theorem test_dataloader_always_not_implemented (m : AMPLIFYDataModule) :
    m.test_dataloader = .error .not_implemented :=
  rfl

/-- C6: `AMPLIFYDataModule.setup` fails fast with a configuration error
whenever no maximum-step count is configured — trainer absent, or
`trainer.max_steps ≤ 0` — returning the error synchronously before any
training dataset or resampler is constructed. -/
theorem setup_fails_fast_without_max_steps (m : AMPLIFYDataModule)
    (inferNumSamples : LimitValBatches → Nat → Nat → Nat) :
    m.setup Option.none inferNumSamples = .error .no_trainer ∧
    ∀ t : Trainer, t.max_steps ≤ 0 →
      m.setup (some t) inferNumSamples = .error .max_steps_not_set := by
  constructor
  · rfl
  · intro t ht
    unfold AMPLIFYDataModule.setup
    dsimp only
    rw [if_pos ht]

/-- Witness for C6 at a concrete module, policy and trainer. -/
theorem setup_fails_fast_without_max_steps_witness :
    dmEx.setup Option.none inferFull = .error .no_trainer ∧
    trainerBad.max_steps ≤ 0 ∧
    dmEx.setup (some trainerBad) inferFull = .error .max_steps_not_set :=
  ⟨(setup_fails_fast_without_max_steps dmEx inferFull).1, by decide,
   (setup_fails_fast_without_max_steps dmEx inferFull).2 trainerBad (by decide)⟩

/-- C7 counterexample: constructing the orchestrator with a tokenizer
lacking a pad token id does NOT raise a `ConfigurationError` —
`AMPLIFYDataModule.__init__` performs no pad-token validation and returns
the constructed module. -/
theorem construct_succeeds_without_pad_token :
    AMPLIFYDataModule.construct [[5, 6], [7]] [[8]] 42 Option.none 4 1 2 150000
        800000 100000 .amino_acids_only tkNoPad = .ok dmNoPad ∧
    tkNoPad.pad_token_id = Option.none :=
  ⟨rfl, rfl⟩

/-- C7 (amended): construction with a tokenizer lacking a pad token id
succeeds, and the pad-token check happens at dataloader creation instead:
`_create_dataloader` fails fast whenever `pad_token_id` is absent — before
any batch (and hence any collation) is produced — and when the pad id is
present it binds it into the collate partial application. -/
theorem create_dataloader_requires_pad_token (m : AMPLIFYDataModule) (mode : Mode) :
    (m.tk.pad_token_id = Option.none →
      m.createDataloader mode = .error .missing_pad_token) ∧
    ∀ pad, m.tk.pad_token_id = some pad →
      m.createDataloader mode =
        .ok { mode := mode, collate_padding_value := pad,
              collate_min_length := m.min_seq_length,
              collate_max_length := m.max_seq_length } := by
  constructor
  · intro h
    unfold AMPLIFYDataModule.createDataloader
    rw [h]
  · intro pad h
    unfold AMPLIFYDataModule.createDataloader
    rw [h]

/-- Witness for C7 (amended) at the concrete pad-less and padded modules. -/
theorem create_dataloader_requires_pad_token_witness :
    dmNoPad.createDataloader .train = .error .missing_pad_token ∧
    dmEx.createDataloader .validation =
      .ok { mode := .validation, collate_padding_value := 0,
            collate_min_length := Option.none, collate_max_length := 4 } :=
  ⟨(create_dataloader_requires_pad_token dmNoPad .train).1 rfl,
   (create_dataloader_requires_pad_token dmEx .validation).2 0 rfl⟩

/-- C2: with a trainer attached and `max_steps > 0`, `setup` computes the
training upsampling target exactly as `num_train_samples = max_steps *
global_batch_size`, and the validation sample count by applying the
validation-batch-limit policy (`infer_num_samples`) to
`trainer.limit_val_batches`, the validation dataset length and
`global_batch_size`. -/
theorem setup_sample_counts (m : AMPLIFYDataModule) (t : Trainer)
    (inferNumSamples : LimitValBatches → Nat → Nat → Nat)
    (h : 0 < t.max_steps) :
    ∃ st : SetupState,
      m.setup (some t) inferNumSamples = .ok st ∧
      (st.train_ds.resampler.num_samples : Int) = t.max_steps * m.global_batch_size ∧
      st.valid_ds.resampler.num_samples =
        inferNumSamples t.limit_val_batches (m.buildDataset m.valid_hf_dataset).len
          m.global_batch_size := by
  unfold AMPLIFYDataModule.setup
  dsimp only
  rw [if_neg (by omega)]
  refine ⟨_, rfl, ?_, rfl⟩
  exact Int.toNat_of_nonneg (mul_nonneg h.le (Int.natCast_nonneg _))

/-- Witness for C2 at a concrete module, trainer and policy. -/
theorem setup_sample_counts_witness :
    (0 : Int) < trainerEx.max_steps ∧
    ∃ st : SetupState,
      dmEx.setup (some trainerEx) inferFull = .ok st ∧
      (st.train_ds.resampler.num_samples : Int) =
        trainerEx.max_steps * dmEx.global_batch_size ∧
      st.valid_ds.resampler.num_samples =
        inferFull trainerEx.limit_val_batches
          (dmEx.buildDataset dmEx.valid_hf_dataset).len dmEx.global_batch_size :=
  ⟨by decide, setup_sample_counts dmEx trainerEx inferFull (by decide)⟩

/-- C8: after a successful `setup`, the training dataset is wrapped in a
resampler with `shuffle = true` upsampled to `num_train_samples`, the
validation dataset in a resampler with `shuffle = false` whose
`num_samples` comes from the validation-batch-limit policy, and both
resamplers and both base datasets use the configured seed. -/
theorem setup_resampler_wiring (m : AMPLIFYDataModule) (t : Trainer)
    (inferNumSamples : LimitValBatches → Nat → Nat → Nat)
    (h : 0 < t.max_steps) :
    ∃ st : SetupState,
      m.setup (some t) inferNumSamples = .ok st ∧
      st.train_ds.resampler.shuffle = true ∧
      st.valid_ds.resampler.shuffle = false ∧
      st.train_ds.resampler.seed = m.seed ∧
      st.valid_ds.resampler.seed = m.seed ∧
      st.train_ds.resampler.num_samples =
        (t.max_steps * (m.global_batch_size : Int)).toNat ∧
      st.valid_ds.resampler.num_samples =
        inferNumSamples t.limit_val_batches (m.buildDataset m.valid_hf_dataset).len
          m.global_batch_size ∧
      st.train_ds.base = m.buildDataset m.train_hf_dataset ∧
      st.valid_ds.base = m.buildDataset m.valid_hf_dataset := by
  unfold AMPLIFYDataModule.setup
  dsimp only
  rw [if_neg (by omega)]
  exact ⟨_, rfl, rfl, rfl, rfl, rfl, rfl, rfl, rfl, rfl⟩

/-- Witness for C8 at a concrete module, trainer and policy. -/
theorem setup_resampler_wiring_witness :
    (0 : Int) < trainerEx.max_steps ∧
    ∃ st : SetupState,
      dmEx.setup (some trainerEx) inferFull = .ok st ∧
      st.train_ds.resampler.shuffle = true ∧
      st.valid_ds.resampler.shuffle = false ∧
      st.train_ds.resampler.seed = dmEx.seed ∧
      st.valid_ds.resampler.seed = dmEx.seed ∧
      st.train_ds.resampler.num_samples =
        (trainerEx.max_steps * (dmEx.global_batch_size : Int)).toNat ∧
      st.valid_ds.resampler.num_samples =
        inferFull trainerEx.limit_val_batches
          (dmEx.buildDataset dmEx.valid_hf_dataset).len dmEx.global_batch_size ∧
      st.train_ds.base = dmEx.buildDataset dmEx.train_hf_dataset ∧
      st.valid_ds.base = dmEx.buildDataset dmEx.valid_hf_dataset :=
  ⟨by decide, setup_resampler_wiring dmEx trainerEx inferFull (by decide)⟩

/-- C4: for every `position < num_samples`, the resampler's `get` computes
`epoch = position / epoch_length` and `offset = position % epoch_length`,
derives the per-epoch permutation deterministically from `(seed, epoch)` —
a true permutation of `[0, epoch_length)`, the identity when
`shuffle = false` — and delegates to the wrapped dataset at
`permutation[offset]`; with `shuffle = false` and
`num_samples = epoch_length`, the resampled index sequence is exactly
`[0, 1, ..., epoch_length - 1]`. -/
theorem resampler_get_spec {α : Type} (r : MultiEpochDatasetResampler)
    (wrapped : Nat → α) (position : Nat) (_hpos : position < r.num_samples) :
    resamplerGet r wrapped position =
      wrapped ((resamplerPermutation r (position / r.epoch_length)).getD
        (position % r.epoch_length) 0) ∧
    (resamplerPermutation r (position / r.epoch_length)).Perm
      (List.range r.epoch_length) ∧
    (r.shuffle = false →
      resamplerPermutation r (position / r.epoch_length) =
        List.range r.epoch_length) ∧
    (r.shuffle = false → r.num_samples = r.epoch_length →
      (List.range r.num_samples).map (resamplerUnderlyingIndex r) =
        List.range r.epoch_length) := by
  refine ⟨rfl, ?_, ?_, ?_⟩
  · unfold resamplerPermutation
    split
    · exact epochPermutation_perm ..
    · exact List.Perm.refl _
  · intro hs
    unfold resamplerPermutation
    rw [hs]
    simp
  · intro hs hn
    rw [hn]
    apply List.ext_getElem
    · simp
    · intro k h1 h2
      simp only [List.getElem_map, List.getElem_range]
      have hk : k < r.epoch_length := by simpa using h2
      unfold resamplerUnderlyingIndex resamplerPermutation
      rw [hs]
      rw [Nat.div_eq_of_lt hk, Nat.mod_eq_of_lt hk]
      simp only [Bool.false_eq_true, if_false]
      rw [List.getD_eq_getElem _ _ (by simpa using hk)]
      simp

/-- Witness for C4 at a concrete unshuffled resampler, `position = 1`. -/
theorem resampler_get_spec_witness :
    (1 : Nat) < resEx.num_samples ∧
    (resamplerGet resEx (fun j => j) 1 =
      (fun j => j) ((resamplerPermutation resEx (1 / resEx.epoch_length)).getD
        (1 % resEx.epoch_length) 0) ∧
    (resamplerPermutation resEx (1 / resEx.epoch_length)).Perm
      (List.range resEx.epoch_length) ∧
    (resEx.shuffle = false →
      resamplerPermutation resEx (1 / resEx.epoch_length) =
        List.range resEx.epoch_length) ∧
    (resEx.shuffle = false → resEx.num_samples = resEx.epoch_length →
      (List.range resEx.num_samples).map (resamplerUnderlyingIndex resEx) =
        List.range resEx.epoch_length)) :=
  ⟨by decide, resampler_get_spec resEx (fun j => j) 1 (by decide)⟩

/-- C3: for every non-empty micro-batch (with the `MaskedExample` length
invariant), collation computes the target length
`L = max(min_length or 0, max(len(ex)))`, fails with `BatchTooLongError`
when any example exceeds `max_length`, and otherwise right-pads each
example's `input_ids` with `padding_value` and `labels` with the ignore
sentinel up to `L`, producing rectangular rows of width `L`, one row per
input example in input order with the original example as its leading
segment. -/
theorem collate_spec (batch : List MaskedExample) (padding_value : Nat)
    (min_length : Option Nat) (max_length : Nat)
    (_hne : batch ≠ [])
    (hlab : ∀ ex ∈ batch, ex.labels.length = ex.input_ids.length) :
    ((∃ ex ∈ batch, max_length < ex.input_ids.length) →
      bert_padding_collate_fn batch padding_value min_length max_length =
        .error .batch_too_long) ∧
    ((∀ ex ∈ batch, ex.input_ids.length ≤ max_length) →
      bert_padding_collate_fn batch padding_value min_length max_length =
        .ok { input_ids := batch.map (fun ex =>
                padTo padding_value (collateTargetLength batch min_length) ex.input_ids),
              labels := batch.map (fun ex =>
                padTo ignore_sentinel (collateTargetLength batch min_length) ex.labels) } ∧
      (batch.map (fun ex =>
        padTo padding_value (collateTargetLength batch min_length) ex.input_ids)).length =
          batch.length ∧
      ∀ ex ∈ batch,
        (padTo padding_value (collateTargetLength batch min_length) ex.input_ids).length =
          collateTargetLength batch min_length ∧
        (padTo ignore_sentinel (collateTargetLength batch min_length) ex.labels).length =
          collateTargetLength batch min_length ∧
        (padTo padding_value (collateTargetLength batch min_length) ex.input_ids).take
          ex.input_ids.length = ex.input_ids ∧
        (padTo ignore_sentinel (collateTargetLength batch min_length) ex.labels).take
          ex.labels.length = ex.labels) := by
  constructor
  · rintro ⟨ex, hmem, hlt⟩
    unfold bert_padding_collate_fn
    rw [if_pos]
    exact List.any_eq_true.mpr ⟨ex, hmem, by simpa using hlt⟩
  · intro hle
    unfold bert_padding_collate_fn
    rw [if_neg]
    · refine ⟨rfl, by simp, ?_⟩
      intro ex hmem
      have hin : ex.input_ids.length ≤ collateTargetLength batch min_length := by
        unfold collateTargetLength
        exact le_trans
          (mem_le_foldr_max (List.mem_map_of_mem (fun ex => ex.input_ids.length) hmem))
          (Nat.le_max_right _ _)
      have hlb : ex.labels.length ≤ collateTargetLength batch min_length := by
        rw [hlab ex hmem]
        exact hin
      exact ⟨padTo_length _ _ _ hin, padTo_length _ _ _ hlb,
        padTo_take _ _ _, padTo_take _ _ _⟩
    · simp only [List.any_eq_true, not_exists]
      push_neg
      intro ex hmem
      simpa using hle ex hmem

/-- Witness for C3: a batch with example lengths `[5, 8, 3]`,
`max_length = 10` and no `min_length` has target length `L = 8`. -/
theorem collate_spec_witness :
    batchEx ≠ [] ∧
    (∀ ex ∈ batchEx, ex.labels.length = ex.input_ids.length) ∧
    collateTargetLength batchEx Option.none = 8 ∧
    (((∃ ex ∈ batchEx, 10 < ex.input_ids.length) →
      bert_padding_collate_fn batchEx 0 Option.none 10 = .error .batch_too_long) ∧
    ((∀ ex ∈ batchEx, ex.input_ids.length ≤ 10) →
      bert_padding_collate_fn batchEx 0 Option.none 10 =
        .ok { input_ids := batchEx.map (fun ex =>
                padTo 0 (collateTargetLength batchEx Option.none) ex.input_ids),
              labels := batchEx.map (fun ex =>
                padTo ignore_sentinel (collateTargetLength batchEx Option.none) ex.labels) } ∧
      (batchEx.map (fun ex =>
        padTo 0 (collateTargetLength batchEx Option.none) ex.input_ids)).length =
          batchEx.length ∧
      ∀ ex ∈ batchEx,
        (padTo 0 (collateTargetLength batchEx Option.none) ex.input_ids).length =
          collateTargetLength batchEx Option.none ∧
        (padTo ignore_sentinel (collateTargetLength batchEx Option.none) ex.labels).length =
          collateTargetLength batchEx Option.none ∧
        (padTo 0 (collateTargetLength batchEx Option.none) ex.input_ids).take
          ex.input_ids.length = ex.input_ids ∧
        (padTo ignore_sentinel (collateTargetLength batchEx Option.none) ex.labels).take
          ex.labels.length = ex.labels)) :=
  ⟨by decide, by decide, by decide,
   collate_spec batchEx 0 Option.none 10 (by decide) (by decide)⟩

/-- C5 counterexample: it is NOT true that exactly the positions selected
for masking differ between `input_ids` and the original sequence.  With
`mask_token_prob = mask_random_prob = 0` every selected position resolves
to the BERT-style "leave unchanged" branch: at index 0 of `dsUnchanged`
position 0 is selected (`labels` carries the true token, not the ignore
sentinel) yet `input_ids` equals the original sequence. -/
theorem exact_selected_differ_refuted :
    ¬ exactSelectedDifferProp dsUnchanged ctxZero 0 := by
  intro h
  have h0 := h exUnchanged [5] [true] rfl rfl rfl 0 (by decide)
  simp [exUnchanged] at h0

/-- C5 (amended): for every `MaskedExample` produced by the masked-residue
dataset, `len(input_ids) = len(labels) ≤ max_seq_length`; positions not
selected as masked keep the original token and carry the ignore sentinel
(so only selected positions can differ from the original), and every
selected position carries the original token as its label — a selected
position may still equal the original under the "leave unchanged"
branch. -/
theorem masked_example_shape_spec (ds : AMPLIFYMaskedResidueDataset)
    (ctx : CallCtx) (i : Nat) (ex : MaskedExample) (toks : List Nat)
    (sel : List Bool)
    (hex : ds.getitem ctx i = .ok ex)
    (htoks : truncatedTokens ds i = .ok toks)
    (hsel : selectionMask ds i = .ok sel) :
    ex.input_ids.length = ex.labels.length ∧
    ex.input_ids.length ≤ ds.max_seq_length ∧
    ex.input_ids.length = toks.length ∧
    sel.length = toks.length ∧
    ∀ k, k < toks.length →
      (sel.getD k false = false →
        ex.input_ids.getD k 0 = toks.getD k 0 ∧
        ex.labels.getD k 0 = ignore_sentinel) ∧
      (sel.getD k false = true → ex.labels.getD k 0 = (toks.getD k 0 : Int)) ∧
      (ex.input_ids.getD k 0 ≠ toks.getD k 0 → sel.getD k false = true) := by
  have hrows : maskedRows ds i =
      .ok (maskSeq ds.params ds.tk ds.random_mask_strategy (deriveRng ds.seed i) toks) := by
    unfold maskedRows
    rw [htoks]
    rfl
  unfold AMPLIFYMaskedResidueDataset.getitem at hex
  unfold selectionMask at hsel
  rw [hrows] at hex hsel
  simp only [Except.map, Except.ok.injEq] at hex hsel
  subst hex
  subst hsel
  set rows := maskSeq ds.params ds.tk ds.random_mask_strategy (deriveRng ds.seed i) toks
    with hrowsdef
  have hlenrows : rows.length = toks.length := by
    rw [hrowsdef]
    exact maskSeq_length _ _ _ _ _
  refine ⟨by simp, ?_, by simp [hlenrows], by simp [hlenrows], ?_⟩
  · simp only [List.length_map, hlenrows]
    exact truncatedTokens_length_le ds i toks htoks
  · intro k hk
    have hkrows : k < rows.length := by rw [hlenrows]; exact hk
    have e1 : (rows.map (fun r => r.2.1)).getD k 0 = (rows.getD k rowDefault).2.1 :=
      getD_map_of_lt _ rows k 0 rowDefault hkrows
    have e2 : (rows.map (fun r => r.2.2)).getD k 0 = (rows.getD k rowDefault).2.2 :=
      getD_map_of_lt _ rows k 0 rowDefault hkrows
    have e3 : (rows.map (fun r => r.1)).getD k false = (rows.getD k rowDefault).1 :=
      getD_map_of_lt _ rows k false rowDefault hkrows
    have hspec := maskSeq_getD_spec ds.params ds.tk ds.random_mask_strategy toks
      (deriveRng ds.seed i) k hk
    rw [← hrowsdef] at hspec
    refine ⟨?_, ?_, ?_⟩
    · intro hfalse
      rw [e3] at hfalse
      exact ⟨by rw [e1, (hspec.1 hfalse).1], by rw [e2, (hspec.1 hfalse).2]⟩
    · intro htrue
      rw [e3] at htrue
      rw [e2, hspec.2 htrue]
    · intro hdiff
      rw [e3]
      cases hb : (rows.getD k rowDefault).1 with
      | true => rfl
      | false =>
        exact absurd (by rw [e1, (hspec.1 hb).1]) hdiff

/-- Witness for C5 (amended) at the concrete dataset `dsUnchanged`. -/
theorem masked_example_shape_spec_witness :
    dsUnchanged.getitem ctxZero 0 = .ok exUnchanged ∧
    (exUnchanged.input_ids.length = exUnchanged.labels.length ∧
     exUnchanged.input_ids.length ≤ dsUnchanged.max_seq_length ∧
     exUnchanged.input_ids.length = ([5] : List Nat).length ∧
     ([true] : List Bool).length = ([5] : List Nat).length ∧
     ∀ k, k < ([5] : List Nat).length →
       (([true] : List Bool).getD k false = false →
         exUnchanged.input_ids.getD k 0 = ([5] : List Nat).getD k 0 ∧
         exUnchanged.labels.getD k 0 = ignore_sentinel) ∧
       (([true] : List Bool).getD k false = true →
         exUnchanged.labels.getD k 0 = (([5] : List Nat).getD k 0 : Int)) ∧
       (exUnchanged.input_ids.getD k 0 ≠ ([5] : List Nat).getD k 0 →
         ([true] : List Bool).getD k false = true)) :=
  ⟨rfl, masked_example_shape_spec dsUnchanged ctxZero 0 exUnchanged [5] [true]
    rfl rfl rfl⟩

/-- C9: for every parsed command line in which `--min-seq-length` is set to
a non-`None` value, the fine-tuning entrypoint raises `AttributeError` on
the nonexistent parser attribute `datset_class` (the parser defines
`dataset_class`) before `train_model` is called, regardless of which
dataset class was selected; the intended `parser.error` for
`InMemorySingleValueDataset` is never reached. -/
theorem entrypoint_attribute_error_on_min_seq_length (values : String → PyVal)
    (h : values attr_min_seq_length ≠ PyVal.none) :
    finetune_esm2_entrypoint (parseArgs values) =
      .error (.attribute_error attr_datset_class) := by
  have h1 : getattrNs (parseArgs values) attr_min_seq_length =
      .ok (values attr_min_seq_length) := by
    unfold getattrNs parseArgs
    rw [lookup_map_pair, if_pos (by decide)]
  have h2 : getattrNs (parseArgs values) attr_datset_class =
      .error (.attribute_error attr_datset_class) := by
    unfold getattrNs parseArgs
    rw [lookup_map_pair, if_neg (by decide)]
  unfold finetune_esm2_entrypoint
  rw [h1]
  dsimp only
  rw [if_pos h, h2]

/-- Witness for C9: a concrete command line setting `--min-seq-length 128`. -/
theorem entrypoint_attribute_error_witness :
    valuesEx attr_min_seq_length ≠ PyVal.none ∧
    finetune_esm2_entrypoint (parseArgs valuesEx) =
      .error (.attribute_error attr_datset_class) :=
  ⟨by decide, entrypoint_attribute_error_on_min_seq_length valuesEx (by decide)⟩

end BioNeMo
